import Mathlib

/-!
Verification of the flood-risk scoring engine of `src/Prep-A.py`.

The numeric type of the embedding is `ℚ` (exact arithmetic standing for the
Python floats).  Python dictionaries keyed by strings are embedded as
association lists `List (String × ℚ)`; a subscript `d[k]` that may raise
`KeyError` is embedded as `dictGet`, returning in the `Except PyError`
monad.  `PyError` also carries the error kinds named by the specification
(`InvalidConfigurationError`, `MissingParameterError`, `DataFormatError`,
`RemoteFetchError`) so that claims about them can be stated; the embedded
code itself only ever produces the Python-builtin kinds it actually raises.
-/

deriving instance DecidableEq for Except

namespace PrepA

/-- The failure kinds observable in this development: the Python builtins the
source can raise (`ZeroDivisionError`, `KeyError`, a generic exception with a
message), plus the typed error kinds the specification names, which exist here
so that the spec's error-handling claims are statable. -/
inductive PyError where
  | zeroDivisionError : PyError
  | keyError : String → PyError
  | exc : String → PyError
  | invalidConfigurationError : PyError
  | missingParameterError : PyError
  | dataFormatError : PyError
  | remoteFetchError : PyError
deriving DecidableEq, Repr

/-- Python dict subscript `d[k]`: the value when the key is present, a
`KeyError` otherwise. -/
def dictGet (d : List (String × ℚ)) (k : String) : Except PyError ℚ :=
  match d.lookup k with
  | some v => Except.ok v
  | none => Except.error (PyError.keyError k)

/-- `RiskCalculator.normalize` (src/Prep-A.py lines 76-78):
`(val - vmin) / (vmax - vmin) if vmax != vmin else 0`. -/
def normalize (val vmin vmax : ℚ) : ℚ :=
  if vmax ≠ vmin then (val - vmin) / (vmax - vmin) else 0

/-- The six-term weighted sum inside `RiskCalculator.calculate_iri`
(src/Prep-A.py lines 85-92).  Lookups happen in Python's left-to-right
evaluation order of the `iri = (...)` expression; the first absent key
raises its `KeyError`. -/
def iriBody (normalized_weights params : List (String × ℚ)) : Except PyError ℚ := do
  let nwIntensity ← dictGet normalized_weights "intensity"
  let pIntensity ← dictGet params "intensity_norm"
  let nwDuration ← dictGet normalized_weights "duration"
  let pDuration ← dictGet params "duration_norm"
  let nwAccumulation ← dictGet normalized_weights "accumulation"
  let pAccumulation ← dictGet params "accumulation_norm"
  let nwHumidity ← dictGet normalized_weights "humidity"
  let pHumidity ← dictGet params "humidity_norm"
  let nwSlope ← dictGet normalized_weights "slope"
  let pSlope ← dictGet params "slope_norm"
  let nwLandUse ← dictGet normalized_weights "land_use"
  let pLandUse ← dictGet params "land_use_norm"
  Except.ok (nwIntensity * pIntensity + nwDuration * pDuration +
    nwAccumulation * pAccumulation + nwHumidity * pHumidity +
    nwSlope * pSlope + nwLandUse * pLandUse)

/-- `RiskCalculator.calculate_iri` (src/Prep-A.py lines 80-93).
`total_weight = sum(weights.values())`; the dict comprehension
`{k: v/total_weight for k, v in weights.items()}` raises
`ZeroDivisionError` exactly when `weights` is non-empty and the sum is 0
(on an empty dict no division is evaluated); then the weighted sum is
formed with plain subscripts that can raise `KeyError`. -/
def calculate_iri (params weights : List (String × ℚ)) : Except PyError ℚ :=
  let total_weight := (weights.map Prod.snd).sum
  if weights ≠ [] ∧ total_weight = 0 then Except.error PyError.zeroDivisionError
  else iriBody (weights.map fun p => (p.1, p.2 / total_weight)) params

/-- `RiskCalculator.determine_risk_level` (src/Prep-A.py lines 95-104); the
decimal thresholds 0.7, 0.4, 0.2 are the rationals 7/10, 2/5, 1/5. -/
def determine_risk_level (iri : ℚ) : String × String :=
  if iri ≥ 7/10 then ("high", "🔴 Risque Très Élevé")
  else if iri ≥ 2/5 then ("medium", "🟠 Risque Élevé")
  else if iri ≥ 1/5 then ("low", "🟡 Risque Modéré")
  else ("none", "🟢 Risque Faible")

/-- The ordered ranks of the risk tiers, none < low < medium < high. -/
def tierRank (t : String) : ℕ :=
  if t = "high" then 3 else if t = "medium" then 2 else if t = "low" then 1 else 0

/-- The `land_use_factors` table of `main` (src/Prep-A.py lines 326-333);
the spec's English category names are the source's French keys
("Urban dense" = "Urbain dense", etc.). -/
def land_use_factors : List (String × ℚ) :=
  [("Urbain dense", 1), ("Urbain dispersé", 4/5), ("Zone agricole", 3/5),
   ("Savane", 2/5), ("Forêt", 1/5), ("Zone humide", 9/10)]

/-- The `params` dict of `main` (src/Prep-A.py lines 335-342), with the
land-use factor already looked up. -/
def mkParams (intensity duration accumulation humidity slope factor : ℚ) :
    List (String × ℚ) :=
  [("intensity_norm", normalize intensity 0 100),
   ("duration_norm", normalize duration 0 72),
   ("accumulation_norm", normalize accumulation 0 500),
   ("humidity_norm", normalize humidity 0 100),
   ("slope_norm", normalize slope 0 100),
   ("land_use_norm", factor)]

/-- A parameter dict holding six already-normalized values, as
`calculate_iri` receives it. -/
def mkNormParams (p1 p2 p3 p4 p5 p6 : ℚ) : List (String × ℚ) :=
  [("intensity_norm", p1), ("duration_norm", p2), ("accumulation_norm", p3),
   ("humidity_norm", p4), ("slope_norm", p5), ("land_use_norm", p6)]

/-- A weight dict on the six recognized keys. -/
def mkWeights (w1 w2 w3 w4 w5 w6 : ℚ) : List (String × ℚ) :=
  [("intensity", w1), ("duration", w2), ("accumulation", w3),
   ("humidity", w4), ("slope", w5), ("land_use", w6)]

/-- The default weights of `main`'s session state (src/Prep-A.py
lines 222-229). -/
def default_weights : List (String × ℚ) :=
  mkWeights (3/10) (1/5) (3/20) (3/20) (1/10) (1/10)

/-- Uniform scaling of a weight dict by `k`. -/
def scaleWeights (k : ℚ) (w : List (String × ℚ)) : List (String × ℚ) :=
  w.map fun p => (p.1, k * p.2)

/-- A parameter dict contains all six keys `calculate_iri` reads. -/
def completeParams (p : List (String × ℚ)) : Prop :=
  (p.lookup "intensity_norm").isSome = true ∧
  (p.lookup "duration_norm").isSome = true ∧
  (p.lookup "accumulation_norm").isSome = true ∧
  (p.lookup "humidity_norm").isSome = true ∧
  (p.lookup "slope_norm").isSome = true ∧
  (p.lookup "land_use_norm").isSome = true

/-- A weight dict contains all six keys `calculate_iri` reads. -/
def completeWeights (w : List (String × ℚ)) : Prop :=
  (w.lookup "intensity").isSome = true ∧
  (w.lookup "duration").isSome = true ∧
  (w.lookup "accumulation").isSome = true ∧
  (w.lookup "humidity").isSome = true ∧
  (w.lookup "slope").isSome = true ∧
  (w.lookup "land_use").isSome = true

/-- One entry of the forecast payload `weather_data["list"]`: the optional
`"rain"` sub-dict, itself a string-keyed dict that may carry the `"3h"`
total. -/
structure ForecastEntry where
  rain : Option (List (String × ℚ))
deriving DecidableEq, Repr

/-- `forecast.get("rain", {}).get("3h", 0)` (src/Prep-A.py line 298). -/
def rain3h (e : ForecastEntry) : ℚ :=
  ((e.rain.getD []).lookup "3h").getD 0

/-- Python `max` of a non-empty list. -/
def pyMax : ℚ → List ℚ → ℚ := fun x xs => xs.foldl max x

/-- `max(hourly_rain) if hourly_rain else 0` (src/Prep-A.py line 303). -/
def forecastIntensity (hourly_rain : List ℚ) : ℚ :=
  match hourly_rain with
  | [] => 0
  | x :: xs => pyMax x xs

/-- The forecast-API harmonization of `main` (src/Prep-A.py lines 296-303):
`hourly_rain` collects the first 8 periods' 3-hour rain totals; accumulation
is their sum, duration is `len(hourly_rain) * 3`, intensity is
`max(hourly_rain) if hourly_rain else 0`. -/
def forecastHarmonize (entries : List ForecastEntry) : ℚ × ℚ × ℚ :=
  (((entries.take 8).map rain3h).sum,
   (((entries.take 8).map rain3h).length : ℚ) * 3,
   forecastIntensity ((entries.take 8).map rain3h))

/-- An opened grid dataset; its contents are irrelevant to the claims
settled here, only whether opening succeeded. -/
abbrev Dataset := String

/-- The temporary-file path `process_netcdf` returns beside the dataset. -/
abbrev TmpPath := String

/-- The parsed JSON of a forecast response (the part the program reads). -/
abbrev WeatherJson := List ForecastEntry

/-- `DataProcessor.process_netcdf` (src/Prep-A.py lines 51-62).  `attempt`
is the outcome of the `try` block (writing the upload to a temp file and
`xr.open_dataset`): a value, or the exception it raised.  The source
catches every exception, shows `st.error(...)` and returns `(None, None)`,
so the embedding never propagates an error. -/
def process_netcdf (attempt : Except PyError (Dataset × TmpPath)) :
    Except PyError (Option Dataset × Option TmpPath) :=
  match attempt with
  | Except.ok (ds, p) => Except.ok (some ds, some p)
  | Except.error _ => Except.ok (none, none)

/-- `DataProcessor.fetch_weather_data` (src/Prep-A.py lines 64-73).
`attempt` is the outcome of the `try` block (the HTTP GET,
`raise_for_status`, JSON decode).  The source catches every exception,
shows `st.error(...)` and returns `None`. -/
def fetch_weather_data (attempt : Except PyError WeatherJson) :
    Except PyError (Option WeatherJson) :=
  match attempt with
  | Except.ok j => Except.ok (some j)
  | Except.error _ => Except.ok none

/-- Whether an embedded Python call returned normally (`Except.ok`) rather
than propagating an exception. -/
def returnsNormally (x : Except PyError (Option Dataset × Option TmpPath)) : Bool :=
  match x with
  | Except.ok _ => true
  | Except.error _ => false

/-- Same notion for the weather fetch. -/
def returnsNormallyW (x : Except PyError (Option WeatherJson)) : Bool :=
  match x with
  | Except.ok _ => true
  | Except.error _ => false

/-- The manual-entry assessment pipeline of `main` (src/Prep-A.py
lines 326-346): look up the land-use factor (a plain subscript, so a
`KeyError` on an unknown category), normalize the five numeric inputs with
the fixed bounds tables, aggregate with `calculate_iri`, classify with
`determine_risk_level`. -/
def mainAssessment (intensity duration accumulation humidity slope : ℚ)
    (land_use : String) (weights : List (String × ℚ)) :
    Except PyError (List (String × ℚ) × ℚ × String × String) := do
  let factor ← dictGet land_use_factors land_use
  let params := mkParams intensity duration accumulation humidity slope factor
  let iri ← calculate_iri params weights
  Except.ok (params, iri, determine_risk_level iri)

/-- C1: `determine_risk_level` returns tier "high" iff `iri ≥ 0.7`,
"medium" iff `0.4 ≤ iri < 0.7`, "low" iff `0.2 ≤ iri < 0.4` and "none" iff
`iri < 0.2`; each boundary belongs to the higher tier and the rule applies
to every rational input, inside or outside `[0, 1]`. -/
theorem determine_risk_level_thresholds (iri : ℚ) :
    ((determine_risk_level iri).1 = "high" ↔ 7/10 ≤ iri) ∧
    ((determine_risk_level iri).1 = "medium" ↔ 2/5 ≤ iri ∧ iri < 7/10) ∧
    ((determine_risk_level iri).1 = "low" ↔ 1/5 ≤ iri ∧ iri < 2/5) ∧
    ((determine_risk_level iri).1 = "none" ↔ iri < 1/5) := by
  unfold determine_risk_level
  split_ifs with h1 h2 h3 <;>
    refine ⟨?_, ?_, ?_, ?_⟩ <;>
    simp <;>
    first
      | linarith
      | (constructor <;> linarith)
      | (intro h; linarith)

/-- C2: `normalize` returns exactly `(val - vmin) / (vmax - vmin)` whenever
the bounds differ, with no clamping (a value beyond the bounds lands outside
`[0, 1]`), and returns 0 on a degenerate range `vmin = vmax`; as a function
`ℚ → ℚ → ℚ → ℚ` it is total and never fails. -/
theorem normalize_spec (val vmin vmax : ℚ) :
    (vmin ≠ vmax → normalize val vmin vmax = (val - vmin) / (vmax - vmin)) ∧
    (vmin = vmax → normalize val vmin vmax = 0) ∧
    (vmin < vmax → vmax < val → 1 < normalize val vmin vmax) ∧
    (vmin < vmax → val < vmin → normalize val vmin vmax < 0) := by
  refine ⟨fun h => ?_, fun h => ?_, fun hlt hv => ?_, fun hlt hv => ?_⟩
  · unfold normalize
    rw [if_pos (Ne.symm h)]
  · subst h
    unfold normalize
    simp
  · unfold normalize
    rw [if_pos (ne_of_gt hlt), lt_div_iff₀ (by linarith)]
    linarith
  · unfold normalize
    rw [if_pos (ne_of_gt hlt)]
    apply div_neg_of_neg_of_pos <;> linarith

lemma pyMax_spec (x : ℚ) (xs : List ℚ) :
    (∀ a ∈ x :: xs, a ≤ pyMax x xs) ∧ pyMax x xs ∈ x :: xs := by
  induction xs generalizing x with
  | nil => simp [pyMax]
  | cons y ys ih =>
    have h := ih (max x y)
    have hred : pyMax x (y :: ys) = pyMax (max x y) ys := rfl
    rw [hred]
    constructor
    · intro a ha
      rcases List.mem_cons.mp ha with rfl | ha2
      · exact le_trans (le_max_left a y) (h.1 _ (List.mem_cons_self _ _))
      · rcases List.mem_cons.mp ha2 with rfl | ha3
        · exact le_trans (le_max_right x a) (h.1 _ (List.mem_cons_self _ _))
        · exact h.1 a (List.mem_cons_of_mem _ ha3)
    · rcases List.mem_cons.mp h.2 with hm | hm
      · rcases max_choice x y with hc | hc
        · rw [hm, hc]; exact List.mem_cons_self _ _
        · rw [hm, hc]; exact List.mem_cons_of_mem _ (List.mem_cons_self _ _)
      · exact List.mem_cons_of_mem _ (List.mem_cons_of_mem _ hm)

lemma forecastIntensity_ub (hr : List ℚ) : ∀ a ∈ hr, a ≤ forecastIntensity hr := by
  cases hr with
  | nil => simp
  | cons x xs => exact (pyMax_spec x xs).1

lemma forecastIntensity_mem (hr : List ℚ) (h : hr ≠ []) :
    forecastIntensity hr ∈ hr := by
  cases hr with
  | nil => exact absurd rfl h
  | cons x xs => exact (pyMax_spec x xs).2

/-- C3: for every forecast payload, the harmonization of the forecast-API
branch yields accumulation = the sum of the first 8 periods' rain totals,
duration = 3 · (number of periods used), and intensity = the maximum rain
total over those periods (0 when the payload is empty); an entry with no
`"rain"` field contributes 0 rather than failing. -/
theorem forecast_harmonization (entries : List ForecastEntry) :
    (forecastHarmonize entries).1 = ((entries.take 8).map rain3h).sum ∧
    (forecastHarmonize entries).2.1 = 3 * ((min entries.length 8 : ℕ) : ℚ) ∧
    (∀ e ∈ entries.take 8, rain3h e ≤ (forecastHarmonize entries).2.2) ∧
    (entries = [] → (forecastHarmonize entries).2.2 = 0) ∧
    (entries ≠ [] → ∃ e ∈ entries.take 8,
      (forecastHarmonize entries).2.2 = rain3h e) ∧
    rain3h ⟨none⟩ = 0 := by
  refine ⟨rfl, ?_, ?_, ?_, ?_, rfl⟩
  · show (((entries.take 8).map rain3h).length : ℚ) * 3 = _
    rw [List.length_map, List.length_take, min_comm 8 entries.length]
    ring
  · intro e he
    exact forecastIntensity_ub _ _ (List.mem_map_of_mem rain3h he)
  · intro h
    subst h
    rfl
  · intro h
    have hne : (entries.take 8).map rain3h ≠ [] := by
      cases entries with
      | nil => exact absurd rfl h
      | cons x xs => simp [List.take]
    have hmem := forecastIntensity_mem _ hne
    rcases List.mem_map.mp hmem with ⟨e, he, heq⟩
    exact ⟨e, he, heq.symm⟩

lemma level_eq (x : ℚ) :
    (determine_risk_level x).1 =
      if 7/10 ≤ x then "high" else if 2/5 ≤ x then "medium"
      else if 1/5 ≤ x then "low" else "none" := by
  unfold determine_risk_level
  split_ifs <;> rfl

lemma tierRank_level (x : ℚ) :
    tierRank (determine_risk_level x).1 =
      if 7/10 ≤ x then 3 else if 2/5 ≤ x then 2 else if 1/5 ≤ x then 1 else 0 := by
  rw [level_eq]
  unfold tierRank
  split_ifs <;> simp_all

/-- C10: the risk classifier is monotone with respect to the tier order
none < low < medium < high, and every input falls in exactly one of the
four tiers. -/
theorem determine_risk_level_monotone (a b : ℚ) (hab : a ≤ b) :
    tierRank (determine_risk_level a).1 ≤ tierRank (determine_risk_level b).1 ∧
    ((determine_risk_level a).1 = "none" ∨ (determine_risk_level a).1 = "low" ∨
     (determine_risk_level a).1 = "medium" ∨ (determine_risk_level a).1 = "high") := by
  constructor
  · rw [tierRank_level, tierRank_level]
    split_ifs <;> first | omega | (exfalso; linarith)
  · rw [level_eq]
    split_ifs <;> simp

/-- Witness for C10 at the concrete pair 1/10 ≤ 1/2. -/
theorem determine_risk_level_monotone_witness :
    tierRank (determine_risk_level (1/10)).1 ≤ tierRank (determine_risk_level (1/2)).1 ∧
    ((determine_risk_level (1/10)).1 = "none" ∨ (determine_risk_level (1/10)).1 = "low" ∨
     (determine_risk_level (1/10)).1 = "medium" ∨ (determine_risk_level (1/10)).1 = "high") :=
  determine_risk_level_monotone (1/10) (1/2) (by norm_num)

lemma lookup_map_div (w : List (String × ℚ)) (c : ℚ) (k : String) :
    (w.map fun q => (q.1, q.2 / c)).lookup k = (w.lookup k).map (fun x => x / c) := by
  induction w with
  | nil => rfl
  | cons q t ih =>
    simp only [List.map_cons, List.lookup]
    cases hq : (k == q.1) <;> simp [hq, ih]

lemma scaleWeights_sum (k : ℚ) (w : List (String × ℚ)) :
    ((scaleWeights k w).map Prod.snd).sum = k * (w.map Prod.snd).sum := by
  induction w with
  | nil => simp [scaleWeights]
  | cons q t ih =>
    simp only [scaleWeights, List.map_cons, List.sum_cons] at ih ⊢
    rw [ih]
    ring

/-- C4: the aggregator renormalizes by the weight sum, so uniformly scaling a
weight dict with non-negative entries and positive sum by any positive `k`
leaves the computed IRI unchanged, for every complete parameter dict. -/
theorem calculate_iri_scale_invariant (params weights : List (String × ℚ)) (k : ℚ)
    (hk : 0 < k)
    (_hcp : completeParams params)
    (_hnn : ∀ q ∈ weights.map Prod.snd, 0 ≤ q)
    (hsum : 0 < (weights.map Prod.snd).sum) :
    calculate_iri params (scaleWeights k weights) = calculate_iri params weights := by
  have hT : (weights.map Prod.snd).sum ≠ 0 := ne_of_gt hsum
  have hT2 : ((scaleWeights k weights).map Prod.snd).sum = k * (weights.map Prod.snd).sum :=
    scaleWeights_sum k weights
  have hc1 : ¬(scaleWeights k weights ≠ [] ∧
      ((scaleWeights k weights).map Prod.snd).sum = 0) := by
    rintro ⟨_, h2⟩
    rw [hT2] at h2
    rcases mul_eq_zero.mp h2 with hk0 | h0
    · exact (ne_of_gt hk) hk0
    · exact hT h0
  have hc2 : ¬(weights ≠ [] ∧ (weights.map Prod.snd).sum = 0) := fun h => hT h.2
  simp only [calculate_iri]
  rw [if_neg hc1, if_neg hc2]
  congr 1
  simp only [hT2]
  unfold scaleWeights
  rw [List.map_map]
  apply List.map_congr_left
  intro q hq
  simp only [Function.comp_apply]
  rw [mul_div_mul_left _ _ (ne_of_gt hk)]

/-- Witness for C4: doubling the default weights leaves the IRI of the
manual scenario's parameters unchanged. -/
theorem calculate_iri_scale_invariant_witness :
    calculate_iri (mkNormParams (3/10) (1/12) (9/50) (1/2) (1/10) 1)
        (scaleWeights 2 default_weights) =
      calculate_iri (mkNormParams (3/10) (1/12) (9/50) (1/2) (1/10) 1) default_weights :=
  calculate_iri_scale_invariant (mkNormParams (3/10) (1/12) (9/50) (1/2) (1/10) 1)
    default_weights 2 (by norm_num) ⟨rfl, rfl, rfl, rfl, rfl, rfl⟩
    (by norm_num [default_weights, mkWeights]) (by norm_num [default_weights, mkWeights])

lemma exceptBindOk {α β : Type} (v : α) (f : α → Except PyError β) :
    (Except.ok v : Except PyError α) >>= f = f v := rfl

lemma exceptBindError {α β : Type} (e : PyError) (f : α → Except PyError β) :
    (Except.error e : Except PyError α) >>= f = Except.error e := rfl

lemma calculate_iri_mk (w1 w2 w3 w4 w5 w6 p1 p2 p3 p4 p5 p6 : ℚ)
    (h : w1 + w2 + w3 + w4 + w5 + w6 ≠ 0) :
    calculate_iri (mkNormParams p1 p2 p3 p4 p5 p6) (mkWeights w1 w2 w3 w4 w5 w6) =
      Except.ok (w1 / (w1 + w2 + w3 + w4 + w5 + w6) * p1 +
        w2 / (w1 + w2 + w3 + w4 + w5 + w6) * p2 +
        w3 / (w1 + w2 + w3 + w4 + w5 + w6) * p3 +
        w4 / (w1 + w2 + w3 + w4 + w5 + w6) * p4 +
        w5 / (w1 + w2 + w3 + w4 + w5 + w6) * p5 +
        w6 / (w1 + w2 + w3 + w4 + w5 + w6) * p6) := by
  have hs : ((mkWeights w1 w2 w3 w4 w5 w6).map Prod.snd).sum =
      w1 + w2 + w3 + w4 + w5 + w6 := by
    simp [mkWeights]
    ring
  simp only [calculate_iri, hs]
  rw [if_neg (by rintro ⟨_, h0⟩; exact h h0)]
  simp [iriBody, dictGet, mkWeights, mkNormParams, List.lookup, exceptBindOk]

/-- C8: with all six normalized parameter values in `[0, 1]` and a weight
dict with non-negative entries of positive sum, the aggregated IRI is a
convex combination and lies in `[0, 1]`. -/
theorem calculate_iri_unit_interval (w1 w2 w3 w4 w5 w6 p1 p2 p3 p4 p5 p6 : ℚ)
    (hw1 : 0 ≤ w1) (hw2 : 0 ≤ w2) (hw3 : 0 ≤ w3)
    (hw4 : 0 ≤ w4) (hw5 : 0 ≤ w5) (hw6 : 0 ≤ w6)
    (hsum : 0 < w1 + w2 + w3 + w4 + w5 + w6)
    (hp1 : 0 ≤ p1) (hq1 : p1 ≤ 1) (hp2 : 0 ≤ p2) (hq2 : p2 ≤ 1)
    (hp3 : 0 ≤ p3) (hq3 : p3 ≤ 1) (hp4 : 0 ≤ p4) (hq4 : p4 ≤ 1)
    (hp5 : 0 ≤ p5) (hq5 : p5 ≤ 1) (hp6 : 0 ≤ p6) (hq6 : p6 ≤ 1) :
    ∃ r, calculate_iri (mkNormParams p1 p2 p3 p4 p5 p6) (mkWeights w1 w2 w3 w4 w5 w6) =
      Except.ok r ∧ 0 ≤ r ∧ r ≤ 1 := by
  have hS : w1 + w2 + w3 + w4 + w5 + w6 ≠ 0 := ne_of_gt hsum
  refine ⟨_, calculate_iri_mk w1 w2 w3 w4 w5 w6 p1 p2 p3 p4 p5 p6 hS, ?_, ?_⟩
  · have t1 : 0 ≤ w1 / (w1 + w2 + w3 + w4 + w5 + w6) * p1 :=
      mul_nonneg (div_nonneg hw1 hsum.le) hp1
    have t2 : 0 ≤ w2 / (w1 + w2 + w3 + w4 + w5 + w6) * p2 :=
      mul_nonneg (div_nonneg hw2 hsum.le) hp2
    have t3 : 0 ≤ w3 / (w1 + w2 + w3 + w4 + w5 + w6) * p3 :=
      mul_nonneg (div_nonneg hw3 hsum.le) hp3
    have t4 : 0 ≤ w4 / (w1 + w2 + w3 + w4 + w5 + w6) * p4 :=
      mul_nonneg (div_nonneg hw4 hsum.le) hp4
    have t5 : 0 ≤ w5 / (w1 + w2 + w3 + w4 + w5 + w6) * p5 :=
      mul_nonneg (div_nonneg hw5 hsum.le) hp5
    have t6 : 0 ≤ w6 / (w1 + w2 + w3 + w4 + w5 + w6) * p6 :=
      mul_nonneg (div_nonneg hw6 hsum.le) hp6
    linarith
  · have e : w1 / (w1 + w2 + w3 + w4 + w5 + w6) * p1 +
        w2 / (w1 + w2 + w3 + w4 + w5 + w6) * p2 +
        w3 / (w1 + w2 + w3 + w4 + w5 + w6) * p3 +
        w4 / (w1 + w2 + w3 + w4 + w5 + w6) * p4 +
        w5 / (w1 + w2 + w3 + w4 + w5 + w6) * p5 +
        w6 / (w1 + w2 + w3 + w4 + w5 + w6) * p6 =
        (w1 * p1 + w2 * p2 + w3 * p3 + w4 * p4 + w5 * p5 + w6 * p6) /
          (w1 + w2 + w3 + w4 + w5 + w6) := by
      field_simp
    rw [e, div_le_one hsum]
    have m1 : w1 * p1 ≤ w1 := mul_le_of_le_one_right hw1 hq1
    have m2 : w2 * p2 ≤ w2 := mul_le_of_le_one_right hw2 hq2
    have m3 : w3 * p3 ≤ w3 := mul_le_of_le_one_right hw3 hq3
    have m4 : w4 * p4 ≤ w4 := mul_le_of_le_one_right hw4 hq4
    have m5 : w5 * p5 ≤ w5 := mul_le_of_le_one_right hw5 hq5
    have m6 : w6 * p6 ≤ w6 := mul_le_of_le_one_right hw6 hq6
    linarith

/-- Witness for C8 at the manual scenario's normalized values and the
default weights. -/
theorem calculate_iri_unit_interval_witness :
    ∃ r, calculate_iri (mkNormParams (3/10) (1/12) (9/50) (1/2) (1/10) 1)
      (mkWeights (3/10) (1/5) (3/20) (3/20) (1/10) (1/10)) =
      Except.ok r ∧ 0 ≤ r ∧ r ≤ 1 :=
  calculate_iri_unit_interval (3/10) (1/5) (3/20) (3/20) (1/10) (1/10)
    (3/10) (1/12) (9/50) (1/2) (1/10) 1
    (by norm_num) (by norm_num) (by norm_num) (by norm_num) (by norm_num) (by norm_num)
    (by norm_num)
    (by norm_num) (by norm_num) (by norm_num) (by norm_num) (by norm_num) (by norm_num)
    (by norm_num) (by norm_num) (by norm_num) (by norm_num) (by norm_num) (by norm_num)

/-- C5 fails on the code: on zero-sum weights `calculate_iri` dies with the
unhandled Python `ZeroDivisionError` of the weight-normalizing dict
comprehension, not with a typed `InvalidConfigurationError`. -/
theorem calculate_iri_zero_sum_counterexample :
    calculate_iri (mkNormParams (3/10) (1/12) (9/50) (1/2) (1/10) 1)
      (mkWeights 0 0 0 0 0 0) = Except.error PyError.zeroDivisionError ∧
    calculate_iri (mkNormParams (3/10) (1/12) (9/50) (1/2) (1/10) 1)
      (mkWeights 0 0 0 0 0 0) ≠ Except.error PyError.invalidConfigurationError := by
  have h : calculate_iri (mkNormParams (3/10) (1/12) (9/50) (1/2) (1/10) 1)
      (mkWeights 0 0 0 0 0 0) = Except.error PyError.zeroDivisionError := by
    simp only [calculate_iri]
    rw [if_pos ⟨by simp [mkWeights], by simp [mkWeights]⟩]
  exact ⟨h, by rw [h]; simp⟩

/-- C5 amended: on a weight dict whose values sum to zero, `calculate_iri`
fails — with the unhandled `ZeroDivisionError` of the normalization step
when the dict is non-empty, and with `KeyError "intensity"` when it is
empty; in neither case does it return a value. -/
theorem calculate_iri_zero_sum_amended (params weights : List (String × ℚ))
    (hsum : (weights.map Prod.snd).sum = 0) :
    (weights ≠ [] → calculate_iri params weights = Except.error PyError.zeroDivisionError) ∧
    (weights = [] → calculate_iri params weights =
      Except.error (PyError.keyError "intensity")) := by
  constructor
  · intro hne
    simp only [calculate_iri]
    rw [if_pos ⟨hne, hsum⟩]
  · intro he
    subst he
    rfl

/-- Witness for the amended C5 at the all-zero six-key weight dict. -/
theorem calculate_iri_zero_sum_amended_witness :
    calculate_iri (mkNormParams 0 0 0 0 0 0) (mkWeights 0 0 0 0 0 0) =
      Except.error PyError.zeroDivisionError :=
  (calculate_iri_zero_sum_amended (mkNormParams 0 0 0 0 0 0) (mkWeights 0 0 0 0 0 0)
    (by simp [mkWeights])).1 (by simp [mkWeights])

lemma iriBody_not_ok_of_missing (nw p : List (String × ℚ))
    (h : nw.lookup "intensity" = none ∨ p.lookup "intensity_norm" = none ∨
      nw.lookup "duration" = none ∨ p.lookup "duration_norm" = none ∨
      nw.lookup "accumulation" = none ∨ p.lookup "accumulation_norm" = none ∨
      nw.lookup "humidity" = none ∨ p.lookup "humidity_norm" = none ∨
      nw.lookup "slope" = none ∨ p.lookup "slope_norm" = none ∨
      nw.lookup "land_use" = none ∨ p.lookup "land_use_norm" = none) :
    ∃ k, iriBody nw p = Except.error (PyError.keyError k) := by
  rcases hl1 : nw.lookup "intensity" with _ | a1
  · exact ⟨"intensity", by unfold iriBody dictGet; rw [hl1]; rfl⟩
  rcases hl2 : p.lookup "intensity_norm" with _ | b1
  · exact ⟨"intensity_norm", by unfold iriBody dictGet; rw [hl1, hl2]; rfl⟩
  rcases hl3 : nw.lookup "duration" with _ | a2
  · exact ⟨"duration", by unfold iriBody dictGet; rw [hl1, hl2, hl3]; rfl⟩
  rcases hl4 : p.lookup "duration_norm" with _ | b2
  · exact ⟨"duration_norm", by unfold iriBody dictGet; rw [hl1, hl2, hl3, hl4]; rfl⟩
  rcases hl5 : nw.lookup "accumulation" with _ | a3
  · exact ⟨"accumulation", by unfold iriBody dictGet; rw [hl1, hl2, hl3, hl4, hl5]; rfl⟩
  rcases hl6 : p.lookup "accumulation_norm" with _ | b3
  · exact ⟨"accumulation_norm", by unfold iriBody dictGet; rw [hl1, hl2, hl3, hl4, hl5, hl6]; rfl⟩
  rcases hl7 : nw.lookup "humidity" with _ | a4
  · exact ⟨"humidity", by unfold iriBody dictGet; rw [hl1, hl2, hl3, hl4, hl5, hl6, hl7]; rfl⟩
  rcases hl8 : p.lookup "humidity_norm" with _ | b4
  · exact ⟨"humidity_norm", by
      unfold iriBody dictGet; rw [hl1, hl2, hl3, hl4, hl5, hl6, hl7, hl8]; rfl⟩
  rcases hl9 : nw.lookup "slope" with _ | a5
  · exact ⟨"slope", by
      unfold iriBody dictGet; rw [hl1, hl2, hl3, hl4, hl5, hl6, hl7, hl8, hl9]; rfl⟩
  rcases hl10 : p.lookup "slope_norm" with _ | b5
  · exact ⟨"slope_norm", by
      unfold iriBody dictGet; rw [hl1, hl2, hl3, hl4, hl5, hl6, hl7, hl8, hl9, hl10]; rfl⟩
  rcases hl11 : nw.lookup "land_use" with _ | a6
  · exact ⟨"land_use", by
      unfold iriBody dictGet; rw [hl1, hl2, hl3, hl4, hl5, hl6, hl7, hl8, hl9, hl10, hl11]; rfl⟩
  rcases hl12 : p.lookup "land_use_norm" with _ | b6
  · exact ⟨"land_use_norm", by
      unfold iriBody dictGet
      rw [hl1, hl2, hl3, hl4, hl5, hl6, hl7, hl8, hl9, hl10, hl11, hl12]; rfl⟩
  rcases h with h|h|h|h|h|h|h|h|h|h|h|h <;> simp_all

/-- C6 fails on the code: a weight dict with the six keys plus a seventh
key "extra" does not have exactly the six recognized keys, yet
`calculate_iri` succeeds (the extra weight silently dilutes the result to
half the six-key value), and when a required key is absent the failure is
an unhandled `KeyError`, not a `MissingParameterError`. -/
theorem calculate_iri_key_shape_counterexample :
    (default_weights ++ [("extra", 1)]).map Prod.fst =
      ["intensity", "duration", "accumulation", "humidity", "slope", "land_use", "extra"] ∧
    calculate_iri (mkNormParams (3/10) (1/12) (9/50) (1/2) (1/10) 1)
      (default_weights ++ [("extra", 1)]) = Except.ok (239/1500) ∧
    calculate_iri (mkNormParams (3/10) (1/12) (9/50) (1/2) (1/10) 1) [] =
      Except.error (PyError.keyError "intensity") ∧
    calculate_iri (mkNormParams (3/10) (1/12) (9/50) (1/2) (1/10) 1) [] ≠
      Except.error PyError.missingParameterError := by
  refine ⟨rfl, ?_, rfl, by simp [calculate_iri, iriBody, dictGet, exceptBindError]⟩
  have hsum : (((default_weights ++ [("extra", 1)]).map Prod.snd).sum : ℚ) = 2 := by
    simp [default_weights, mkWeights]
    norm_num
  simp only [calculate_iri, hsum]
  rw [if_neg (by rintro ⟨_, h0⟩; norm_num at h0)]
  simp [iriBody, dictGet, default_weights, mkWeights, mkNormParams, List.lookup, exceptBindOk]
  norm_num

/-- C6 amended: when one of the six recognized keys is absent from the
weight dict or the corresponding `_norm` key is absent from the parameter
dict (and the zero-sum guard does not fire first), `calculate_iri` fails
with an unhandled `KeyError`; keys beyond the six are accepted silently and
only shift the weight renormalization. -/
theorem calculate_iri_missing_key_amended (params weights : List (String × ℚ))
    (hsum : (weights.map Prod.snd).sum ≠ 0)
    (hmiss : weights.lookup "intensity" = none ∨ params.lookup "intensity_norm" = none ∨
      weights.lookup "duration" = none ∨ params.lookup "duration_norm" = none ∨
      weights.lookup "accumulation" = none ∨ params.lookup "accumulation_norm" = none ∨
      weights.lookup "humidity" = none ∨ params.lookup "humidity_norm" = none ∨
      weights.lookup "slope" = none ∨ params.lookup "slope_norm" = none ∨
      weights.lookup "land_use" = none ∨ params.lookup "land_use_norm" = none) :
    ∃ k, calculate_iri params weights = Except.error (PyError.keyError k) := by
  have hguard : ¬(weights ≠ [] ∧ (weights.map Prod.snd).sum = 0) := fun hq => hsum hq.2
  simp only [calculate_iri]
  rw [if_neg hguard]
  apply iriBody_not_ok_of_missing
  have tr : ∀ key : String, weights.lookup key = none →
      (weights.map fun q => (q.1, q.2 / (weights.map Prod.snd).sum)).lookup key = none := by
    intro key hk
    rw [lookup_map_div]
    rw [hk]
    rfl
  rcases hmiss with h|h|h|h|h|h|h|h|h|h|h|h
  · exact Or.inl (tr _ h)
  · exact Or.inr (Or.inl h)
  · exact Or.inr (Or.inr (Or.inl (tr _ h)))
  · exact Or.inr (Or.inr (Or.inr (Or.inl h)))
  · exact Or.inr (Or.inr (Or.inr (Or.inr (Or.inl (tr _ h)))))
  · exact Or.inr (Or.inr (Or.inr (Or.inr (Or.inr (Or.inl h)))))
  · exact Or.inr (Or.inr (Or.inr (Or.inr (Or.inr (Or.inr (Or.inl (tr _ h)))))))
  · exact Or.inr (Or.inr (Or.inr (Or.inr (Or.inr (Or.inr (Or.inr (Or.inl h)))))))
  · exact Or.inr (Or.inr (Or.inr (Or.inr (Or.inr (Or.inr (Or.inr (Or.inr
      (Or.inl (tr _ h)))))))))
  · exact Or.inr (Or.inr (Or.inr (Or.inr (Or.inr (Or.inr (Or.inr (Or.inr
      (Or.inr (Or.inl h)))))))))
  · exact Or.inr (Or.inr (Or.inr (Or.inr (Or.inr (Or.inr (Or.inr (Or.inr
      (Or.inr (Or.inr (Or.inl (tr _ h)))))))))))
  · exact Or.inr (Or.inr (Or.inr (Or.inr (Or.inr (Or.inr (Or.inr (Or.inr
      (Or.inr (Or.inr (Or.inr h))))))))))

/-- Witness for the amended C6: a weight dict holding only "intensity". -/
theorem calculate_iri_missing_key_amended_witness :
    ∃ k, calculate_iri (mkNormParams 0 0 0 0 0 0) [("intensity", 1)] =
      Except.error (PyError.keyError k) :=
  calculate_iri_missing_key_amended (mkNormParams 0 0 0 0 0 0) [("intensity", 1)]
    (by simp) (Or.inr (Or.inr (Or.inl rfl)))

/-- C7 fails on the code: both I/O paths catch every exception internally
(showing a UI message) and hand the caller `None` sentinels, not typed
`DataFormatError` / `RemoteFetchError` failures. -/
theorem io_errors_swallowed_counterexample :
    process_netcdf (Except.error (PyError.exc "cannot open file")) =
      Except.ok (none, none) ∧
    process_netcdf (Except.error (PyError.exc "cannot open file")) ≠
      Except.error PyError.dataFormatError ∧
    fetch_weather_data (Except.error (PyError.exc "connection refused")) =
      Except.ok none ∧
    fetch_weather_data (Except.error (PyError.exc "connection refused")) ≠
      Except.error PyError.remoteFetchError :=
  ⟨rfl, by simp [process_netcdf], rfl, by simp [fetch_weather_data]⟩

/-- C7 amended: `process_netcdf` and `fetch_weather_data` always return
normally; on any failing attempt they swallow the exception and return the
`None` sentinels (`(None, None)` resp. `None`), surfacing no typed failure
to the caller. -/
theorem io_errors_swallowed_amended (a : Except PyError (Dataset × TmpPath))
    (b : Except PyError WeatherJson) :
    returnsNormally (process_netcdf a) = true ∧
    returnsNormallyW (fetch_weather_data b) = true ∧
    (∀ e, a = Except.error e → process_netcdf a = Except.ok (none, none)) ∧
    (∀ e, b = Except.error e → fetch_weather_data b = Except.ok none) := by
  refine ⟨?_, ?_, fun e he => by rw [he]; rfl, fun e he => by rw [he]; rfl⟩
  · cases a with
    | ok v => rfl
    | error e => rfl
  · cases b with
    | ok v => rfl
    | error e => rfl

/-- C9: the manual scenario intensity=30, duration=6, accumulation=90,
humidity=50, slope=10, land_use "Urbain dense" (the spec's "Urban dense",
factor 1) with the default weights yields the normalized values
(3/10, 1/12, 9/50, 1/2, 1/10, 1) — matching ≈(0.3, 0.0833, 0.18, 0.5,
0.1, 1.0) — an IRI of exactly 239/750 (within 0.02 of 0.30), and tier
"low". -/
theorem manual_scenario_end_to_end :
    mainAssessment 30 6 90 50 10 "Urbain dense" default_weights =
      Except.ok (mkParams 30 6 90 50 10 1, 239/750, "low", "🟡 Risque Modéré") ∧
    mkParams 30 6 90 50 10 1 =
      [("intensity_norm", 3/10), ("duration_norm", 1/12), ("accumulation_norm", 9/50),
       ("humidity_norm", 1/2), ("slope_norm", 1/10), ("land_use_norm", 1)] ∧
    |(239 : ℚ)/750 - 3/10| ≤ 1/50 ∧
    |(1 : ℚ)/12 - 833/10000| ≤ 1/10000 := by
  have hp : mkParams 30 6 90 50 10 1 =
      [("intensity_norm", 3/10), ("duration_norm", 1/12), ("accumulation_norm", 9/50),
       ("humidity_norm", 1/2), ("slope_norm", 1/10), ("land_use_norm", 1)] := by
    simp [mkParams, normalize]
    norm_num
  have hw : ((default_weights.map Prod.snd).sum : ℚ) = 1 := by
    simp [default_weights, mkWeights]
    norm_num
  have hcalc : calculate_iri (mkParams 30 6 90 50 10 1) default_weights =
      Except.ok (239/750) := by
    rw [hp]
    simp only [calculate_iri, hw]
    rw [if_neg (by rintro ⟨_, h0⟩; norm_num at h0)]
    simp [iriBody, dictGet, default_weights, mkWeights, List.lookup, exceptBindOk]
    norm_num
  have hlevel : determine_risk_level (239/750) = ("low", "🟡 Risque Modéré") := by
    unfold determine_risk_level
    rw [if_neg (by norm_num), if_neg (by norm_num), if_pos (by norm_num)]
  refine ⟨?_, hp, by rw [abs_le]; constructor <;> norm_num,
    by rw [abs_le]; constructor <;> norm_num⟩
  simp only [mainAssessment]
  rw [show dictGet land_use_factors "Urbain dense" = Except.ok 1 from rfl,
    exceptBindOk]
  rw [hcalc, exceptBindOk, hlevel]

end PrepA
